import Mathlib

/-!
Verification of the keptn cp-connector control-plane core
(`cp-connector/pkg/controlplane/controlplane.go` and
`cp-connector/pkg/controlplane/logforwarder.go`) against its
natural-language specification.

The Go code is shallowly embedded: channels and the `select` loop become a
function over an explicit list of loop messages, side effects (handler
invocations, warn/error log lines, `OnSubscriptionUpdate` calls, records
shipped to the log-ingestion API) become explicit effect traces, and Go
errors become an explicit result type.  Collaborator code that lives
outside this repository snapshot (the event matcher, `AddTemporaryData`,
the event-payload decoders, `ParseTaskEventType`) is modelled from the
specification, as marked on each such definition.
-/

namespace Keptn

/-- Result of a fallible Go call: either a value or an error string.
Mirrors Go's `(T, error)` convention. -/
inductive GoResult (α : Type) where
  | ok (a : α)
  | err (msg : String)
deriving Repr, DecidableEq

/-- Modelled from the spec: the generic event payload schema owned by the
go-utils collaborator (not under src/).  A payload is either a decodable
object carrying the fields the core reads (`project`/`stage`/`service`
scoping for the matcher, `status`/`message` for finished events,
`integrationID`/`message`/`task` for error-log events), or malformed, in
which case every decode attempt fails. -/
structure PayloadFields where
  project : String
  stage : String
  service : String
  status : String
  message : String
  integrationID : String
  task : String
deriving Repr, DecidableEq

/-- Modelled from the spec: an event payload, decodable or malformed. -/
inductive Payload where
  | obj (f : PayloadFields)
  | malformed
deriving Repr, DecidableEq

/-- The event envelope `models.KeptnContextExtendedCE` restricted to the
fields this core reads.  `type` is a pointer in Go (`*string`), hence
`Option`; `tmpData` is the temporary-data map written by
`AddTemporaryData`; `tmpDataBroken` models a payload on which
`AddTemporaryData` fails (e.g. unmarshallable existing data). -/
structure KeptnEvent where
  type : Option String
  shkeptncontext : String
  triggeredid : String
  data : Payload
  tmpData : List (String × String)
  tmpDataBroken : Bool
deriving Repr, DecidableEq

/-- Modelled from the spec: `keptnv2.EventData`, the generic result payload
(`status`, `message`, plus project/stage/service scoping). -/
structure EventData where
  project : String
  stage : String
  service : String
  status : String
  message : String
deriving Repr, DecidableEq

/-- Modelled from the spec: `keptnv2.ErrorLogEvent`, the error-log payload. -/
structure ErrorLogEvent where
  integrationID : String
  message : String
  task : String
deriving Repr, DecidableEq

/-- Modelled from the spec: `keptnv2.EventDataAs` decoding a payload into
`EventData`; decoding fails exactly on malformed payloads. -/
def EventDataAs : Payload → GoResult EventData
  | .obj f => .ok ⟨f.project, f.stage, f.service, f.status, f.message⟩
  | .malformed => .err "json unmarshalling failed"

/-- Modelled from the spec: `keptnv2.EventDataAs` decoding a payload into
`ErrorLogEvent`; decoding fails exactly on malformed payloads. -/
def ErrorLogEventAs : Payload → GoResult ErrorLogEvent
  | .obj f => .ok ⟨f.integrationID, f.message, f.task⟩
  | .malformed => .err "json unmarshalling failed"

/-- `keptnv2.StatusErrored`. -/
def statusErrored : String := "errored"

/-- Modelled from the spec: `keptnv2.ErrorLogEventName`, the dedicated
"log error" event type (go-utils, not under src/). -/
def errorLogEventName : String := "sh.keptn.log.error"

/-- Suffix test on strings, computed over the character lists so that it
evaluates by `decide` (mirrors Go's `strings.HasSuffix`). -/
def strEndsWith (s suffixStr : String) : Bool :=
  suffixStr.toList.isSuffixOf s.toList

/-- Split a character list at `'.'` occurrences (mirrors
`strings.Split(s, ".")`). -/
def splitDots : List Char → List (List Char)
  | [] => [[]]
  | c :: rest =>
    let r := splitDots rest
    if c = '.' then [] :: r
    else
      match r with
      | [] => [[c]]
      | g :: gs => (c :: g) :: gs

/-- Modelled from the spec: the task name extracted by
`keptnv2.ParseTaskEventType` from a dot-delimited event type
(`<prefix>.<task>.finished` yields `<task>`, i.e. the second-to-last
dot-separated component); malformed types yield the empty task name. -/
def parseTaskName (eventType : String) : String :=
  let parts := (splitDots eventType.toList).map (fun l => String.mk l)
  if parts.length ≥ 2 then parts.getD (parts.length - 2) "" else ""

/-- A record shipped to the log-ingestion API (`models.LogEntry` restricted
to the fields `Forward` writes). -/
structure LogEntry where
  integrationID : String
  message : String
  keptnContext : String
  task : String
  triggeredID : String
deriving Repr, DecidableEq

/-- `LogForwardingHandler.Forward` from `logforwarder.go`.  The returned
value is `none` when the Go code faults (nil-pointer dereference of
`keptnEvent.Type`), otherwise `some` of the Go result: the error returned,
or the list of log records emitted via `logApi.Log`. -/
def Forward (keptnEvent : KeptnEvent) (integrationID : String) :
    Option (GoResult (List LogEntry)) :=
  match keptnEvent.type with
  | none => none
  | some ty =>
    some (
      if strEndsWith ty ".finished" then
        match EventDataAs keptnEvent.data with
        | .err e => .err ("could not decode Keptn event data: " ++ e)
        | .ok eventData =>
          let taskName := parseTaskName ty
          if eventData.status = statusErrored then
            .ok [{ integrationID := integrationID
                   message := eventData.message
                   keptnContext := keptnEvent.shkeptncontext
                   task := taskName
                   triggeredID := keptnEvent.triggeredid }]
          else
            .ok []
      else if ty = errorLogEventName then
        match ErrorLogEventAs keptnEvent.data with
        | .err e => .err ("unable decode Keptn event data: " ++ e)
        | .ok eventData =>
          let iid :=
            if eventData.integrationID ≠ "" then eventData.integrationID
            else integrationID
          .ok [{ integrationID := iid
                 message := eventData.message
                 keptnContext := keptnEvent.shkeptncontext
                 task := eventData.task
                 triggeredID := keptnEvent.triggeredid }]
      else
        .ok [])

/-- Modelled from the spec: the filter criteria of a subscription
(`models.EventSubscriptionFilter`, owned by the go-utils collaborator):
optional project/stage/service scoping lists; an empty list is "no
constraint". -/
structure SubscriptionFilter where
  projects : List String
  stages : List String
  services : List String
deriving Repr, DecidableEq

/-- `models.EventSubscription`: `{ID, Event: subject, Filter}`. -/
structure EventSubscription where
  id : String
  event : String
  filter : SubscriptionFilter
deriving Repr, DecidableEq

/-- Modelled from the spec: the per-subscription event matcher
(`eventmatcher.go` is not under src/).  Carries the subscription's
project/stage/service scoping constraints. -/
structure EventMatcher where
  projects : List String
  stages : List String
  services : List String
deriving Repr, DecidableEq

/-- `NewEventMatcherFromSubscription`: build the matcher from the
subscription's filter description. -/
def NewEventMatcherFromSubscription (s : EventSubscription) : EventMatcher :=
  { projects := s.filter.projects
    stages := s.filter.stages
    services := s.filter.services }

/-- Modelled from the spec: one scoping constraint is satisfied when it is
absent (empty list) or contains the event's value — absent filter fields
never reject. -/
def fieldMatches (constraint : List String) (value : String) : Bool :=
  constraint.isEmpty || constraint.contains value

/-- Modelled from the spec: the event's project/stage/service values as
seen by the matcher; a malformed payload carries no values. -/
def scopingValues : Payload → String × String × String
  | .obj f => (f.project, f.stage, f.service)
  | .malformed => ("", "", "")

/-- Modelled from the spec: `EventMatcher.Matches` — the event matches iff
it satisfies every populated constraint of the subscription. -/
def EventMatcher.Matches (m : EventMatcher) (e : KeptnEvent) : Bool :=
  let (p, st, sv) := scopingValues e.data
  fieldMatches m.projects p && fieldMatches m.stages st && fieldMatches m.services sv

/-- `tmpDataDistributorKey`, the key under which the subscription
provenance is stored in the event's temporary data. -/
def tmpDataDistributorKey : String := "distributor"

/-- Insert-or-overwrite into the temporary-data map; the
overwrite-if-existing policy replaces the stored value, never duplicates
the key. -/
def upsertTmp : List (String × String) → String → String → List (String × String)
  | [], k, v => [(k, v)]
  | (k', v') :: rest, k, v =>
    if k' = k then (k, v) :: rest else (k', v') :: upsertTmp rest k v

/-- Modelled from the spec: `models.KeptnContextExtendedCE.AddTemporaryData`
with `OverwriteIfExisting: true` (go-utils, not under src/): upsert the
subscription id into the event's metadata map; may fail (modelled by the
`tmpDataBroken` flag), in which case the event is unchanged. -/
def AddTemporaryData (ev : KeptnEvent) (key value : String) :
    GoResult KeptnEvent :=
  if ev.tmpDataBroken then .err "could not marshal temporary data"
  else .ok { ev with tmpData := upsertTmp ev.tmpData key value }

/-- A Go error as classified by the dispatch loop: `fatal` is true exactly
when `errors.Is(err, ErrEventHandleFatal)` holds. -/
structure GoError where
  fatal : Bool
  msg : String
deriving Repr, DecidableEq

/-- The `Integration` contract restricted to what the loop calls per event:
`OnEvent`, returning `none` (nil) or an error. -/
structure Integration where
  onEvent : KeptnEvent → Option GoError

/-- Observable side effects of the dispatch loop. -/
inductive Effect where
  | invoked (ev : KeptnEvent)
  | warnLog (msg : String)
  | errLog (msg : String)
  | subscriptionUpdate (subjectList : List String)
deriving Repr, DecidableEq

/-- The `integration.OnEvent(...)` call at the end of
`ControlPlane.forwardMatchedEvent`, together with the classification of
its outcome: a fatal error is logged at error level and returned, any
other error is logged at warning level and swallowed. -/
def invokeHandler (integ : Integration) (annEffs : List Effect)
    (ev2 : KeptnEvent) : List Effect × Option GoError :=
  match integ.onEvent ev2 with
  | none => (annEffs ++ [Effect.invoked ev2], none)
  | some err =>
    if err.fatal then
      (annEffs ++ [Effect.invoked ev2,
        Effect.errLog ("Fatal error during handling of event: " ++ err.msg)], some err)
    else
      (annEffs ++ [Effect.invoked ev2,
        Effect.warnLog ("Error during handling of event: " ++ err.msg)], none)

/-- `ControlPlane.forwardMatchedEvent`: best-effort annotation with the
subscription's id (failure only logged, the handler still runs on the
unannotated event), then one handler invocation via `invokeHandler`. -/
def forwardMatchedEvent (integ : Integration) (ev : KeptnEvent)
    (subscription : EventSubscription) : List Effect × Option GoError :=
  match AddTemporaryData ev tmpDataDistributorKey subscription.id with
  | .ok ev2 => invokeHandler integ [] ev2
  | .err e =>
    invokeHandler integ
      [Effect.warnLog ("Could not append subscription data to event: " ++ e)] ev

/-- Modelled from the spec: `EventUpdate`'s metadata (`eventsource.go` is
not under src/) — the subject used for coarse routing. -/
structure EventUpdateMetaData where
  subject : String
deriving Repr, DecidableEq

/-- Modelled from the spec: the received event envelope
`{KeptnEvent, MetaData: {Subject}}`. -/
structure EventUpdate where
  keptnEvent : KeptnEvent
  metaData : EventUpdateMetaData
deriving Repr, DecidableEq

/-- `ControlPlane.handle`: walk the cached subscription set; for each
subscription whose subject equals the event's subject and whose matcher
accepts the event, forward; a non-nil error from forwarding (only ever the
fatal one) is returned immediately, skipping the rest. -/
def handle (integ : Integration) (eu : EventUpdate) :
    List EventSubscription → List Effect × Option GoError
  | [] => ([], none)
  | s :: rest =>
    if s.event = eu.metaData.subject then
      if (NewEventMatcherFromSubscription s).Matches eu.keptnEvent then
        match forwardMatchedEvent integ eu.keptnEvent s with
        | (effs, some err) => (effs, some err)
        | (effs, none) =>
          let r := handle integ eu rest
          (effs ++ r.1, r.2)
      else handle integ eu rest
    else handle integ eu rest

/-- `subjects`: the subject strings of a subscription list, in order. -/
def subjects (subscriptions : List EventSubscription) : List String :=
  subscriptions.map (fun s => s.event)

/-- The mutable state of a `ControlPlane` value during one `Register`
call: the cached subscription set and the `registered` flag. -/
structure CPState where
  currentSubscriptions : List EventSubscription
  registered : Bool
deriving Repr, DecidableEq

/-- One message delivered to the `select` loop: an event from the event
source, a subscription snapshot from the subscription source, or
cancellation of the context. -/
inductive LoopMsg where
  | event (eu : EventUpdate)
  | subs (l : List EventSubscription)
  | cancel
deriving Repr, DecidableEq

/-- How a `Register` call ended: still blocked in the loop (trace
exhausted), returned a setup error before entering the loop, returned the
handler's fatal error, or returned nil after cancellation. -/
inductive RegisterResult where
  | running
  | setupError (msg : String)
  | fatalError (e : GoError)
  | cancelled
deriving Repr, DecidableEq

/-- The dispatch loop of `Register`, processing one message per iteration:
events are handled against the current subscription set (a fatal error
returns immediately), snapshots replace the set wholesale and trigger
`OnSubscriptionUpdate`, cancellation clears `registered` and returns nil. -/
def registerLoop (integ : Integration) :
    CPState → List LoopMsg → CPState × List Effect × RegisterResult
  | st, [] => (st, [], .running)
  | st, .event eu :: rest =>
    let h := handle integ eu st.currentSubscriptions
    match h.2 with
    | some err =>
      if err.fatal then (st, h.1, .fatalError err)
      else
        let r := registerLoop integ st rest
        (r.1, h.1 ++ r.2.1, r.2.2)
    | none =>
      let r := registerLoop integ st rest
      (r.1, h.1 ++ r.2.1, r.2.2)
  | st, .subs l :: rest =>
    let r := registerLoop integ { st with currentSubscriptions := l } rest
    (r.1, Effect.subscriptionUpdate (subjects l) :: r.2.1, r.2.2)
  | st, .cancel :: _ => ({ st with registered := false }, [], .cancelled)

/-- Outcomes of the setup collaborators consumed by `Register`:
`RegisterIntegration` (yielding the integration id), `eventSource.Start`
and `subscriptionSource.Start`. -/
structure Env where
  registerIntegrationResult : GoResult String
  eventSourceStartResult : Option String
  subscriptionSourceStartResult : Option String
deriving Repr, DecidableEq

/-- The initial `ControlPlane` state built by `New`. -/
def initialState : CPState :=
  { currentSubscriptions := [], registered := false }

/-- `ControlPlane.Register`: register the integration, start both
collaborators (any failure is returned immediately, before the loop), set
`registered` and enter the dispatch loop over the message trace. -/
def Register (env : Env) (integ : Integration) (msgs : List LoopMsg) :
    CPState × List Effect × RegisterResult :=
  match env.registerIntegrationResult with
  | .err e => (initialState, [], .setupError ("could not start subscription source: " ++ e))
  | .ok _id =>
    match env.eventSourceStartResult with
    | some e => (initialState, [], .setupError e)
    | none =>
      match env.subscriptionSourceStartResult with
      | some e => (initialState, [], .setupError e)
      | none => registerLoop integ { initialState with registered := true } msgs

/-- `ControlPlane.IsRegistered`: read the `registered` flag. -/
def IsRegistered (st : CPState) : Bool :=
  st.registered

/-- The handler-invocation events of an effect trace, in order. -/
def invokedEvents (effs : List Effect) : List KeptnEvent :=
  effs.filterMap (fun e =>
    match e with
    | .invoked ev => some ev
    | _ => none)

/-- The subscriptions of the cached set that route a given event update:
subject equality plus matcher acceptance. -/
def matchingSubscriptions (eu : EventUpdate) (subs : List EventSubscription) :
    List EventSubscription :=
  subs.filter (fun s =>
    s.event = eu.metaData.subject
      && (NewEventMatcherFromSubscription s).Matches eu.keptnEvent)

/-- The event as dispatched for a given subscription: provenance upserted
under the distributor key. -/
def annotate (ev : KeptnEvent) (subID : String) : KeptnEvent :=
  { ev with tmpData := upsertTmp ev.tmpData tmpDataDistributorKey subID }

/-! ### Concrete sample values used to instantiate the theorems -/

/-- A well-formed event carrying an errored-status payload. -/
def sampleEvent : KeptnEvent :=
  { type := some "sh.keptn.event.dev.checkout.triggered"
    shkeptncontext := "ctx"
    triggeredid := "tid"
    data := .obj ⟨"", "", "", "errored", "boom", "", ""⟩
    tmpData := []
    tmpDataBroken := false }

/-- `sampleEvent` wrapped in an update with subject `"subj"`. -/
def sampleUpdate : EventUpdate :=
  { keptnEvent := sampleEvent, metaData := { subject := "subj" } }

/-- An event whose temporary data cannot be written. -/
def brokenEvent : KeptnEvent :=
  { sampleEvent with tmpDataBroken := true }

/-- An unconstrained subscription on subject `"subj"`. -/
def subA : EventSubscription :=
  { id := "sub-a", event := "subj", filter := ⟨[], [], []⟩ }

/-- A second unconstrained subscription on the same subject. -/
def subB : EventSubscription :=
  { id := "sub-b", event := "subj", filter := ⟨[], [], []⟩ }

/-- An integration whose handler always succeeds. -/
def okIntegration : Integration :=
  { onEvent := fun _ => none }

/-- An integration whose handler always returns the fatal error kind. -/
def fatalIntegration : Integration :=
  { onEvent := fun _ => some ⟨true, "boom"⟩ }

/-- An integration whose handler always returns a recoverable error. -/
def warnIntegration : Integration :=
  { onEvent := fun _ => some ⟨false, "oops"⟩ }

/-- An environment in which registration and both collaborator starts
succeed. -/
def okEnv : Env :=
  { registerIntegrationResult := .ok "int-id"
    eventSourceStartResult := none
    subscriptionSourceStartResult := none }

/-! ### Helper lemmas shared by the claim theorems -/

/-- A non-nil error leaves `invokeHandler` only when the handler returned
it and it is the fatal kind. -/
theorem invokeHandler_snd_eq (integ : Integration) (annEffs : List Effect)
    (ev2 : KeptnEvent) (err : GoError)
    (h : (invokeHandler integ annEffs ev2).2 = some err) :
    err.fatal = true ∧ integ.onEvent ev2 = some err := by
  rcases hO : integ.onEvent ev2 with _ | e
  · simp [invokeHandler, hO] at h
  · by_cases hf : e.fatal = true
    · simp only [invokeHandler, hO, if_pos hf] at h
      simp at h
      simp_all
    · simp [invokeHandler, hO, hf] at h

/-- `invokeHandler` invokes the handler exactly once, on the given event. -/
theorem invokeHandler_fst_invoked (integ : Integration) (annEffs : List Effect)
    (ev2 : KeptnEvent) :
    invokedEvents (invokeHandler integ annEffs ev2).1
      = invokedEvents annEffs ++ [ev2] := by
  unfold invokeHandler
  rcases integ.onEvent ev2 with _ | e
  · simp [invokedEvents]
  · by_cases hf : e.fatal <;> simp [hf, invokedEvents]

/-- `forwardMatchedEvent` returns a non-nil error only when it is fatal. -/
theorem fme_snd_fatal (integ : Integration) (ev : KeptnEvent)
    (s : EventSubscription) (err : GoError)
    (h : (forwardMatchedEvent integ ev s).2 = some err) :
    err.fatal = true := by
  unfold forwardMatchedEvent at h
  rcases hA : AddTemporaryData ev tmpDataDistributorKey s.id with ev2 | e <;>
    rw [hA] at h <;> exact (invokeHandler_snd_eq _ _ _ _ h).1

/-- When the temporary data of the event is intact, annotation succeeds and
`forwardMatchedEvent` runs the handler on the annotated event with no
warning about the annotation. -/
theorem fme_of_tmp_ok (integ : Integration) (ev : KeptnEvent)
    (s : EventSubscription) (hb : ev.tmpDataBroken = false) :
    forwardMatchedEvent integ ev s = invokeHandler integ [] (annotate ev s.id) := by
  unfold forwardMatchedEvent
  have hA : AddTemporaryData ev tmpDataDistributorKey s.id = .ok (annotate ev s.id) := by
    simp [AddTemporaryData, hb, annotate]
  rw [hA]

/-- With intact temporary data, `forwardMatchedEvent` invokes the handler
exactly once, on the event annotated with the subscription's id. -/
theorem fme_invoked_of_tmp_ok (integ : Integration) (ev : KeptnEvent)
    (s : EventSubscription) (hb : ev.tmpDataBroken = false) :
    invokedEvents (forwardMatchedEvent integ ev s).1 = [annotate ev s.id] := by
  rw [fme_of_tmp_ok integ ev s hb, invokeHandler_fst_invoked]
  simp [invokedEvents]

/-- The `registered` flag through the dispatch loop: cancellation clears
it; every other way of leaving (or not leaving) the loop preserves it. -/
theorem registerLoop_flag (integ : Integration) :
    ∀ (msgs : List LoopMsg) (st : CPState),
      ((registerLoop integ st msgs).2.2 = .cancelled →
        (registerLoop integ st msgs).1.registered = false)
    ∧ ((registerLoop integ st msgs).2.2 ≠ .cancelled →
        (registerLoop integ st msgs).1.registered = st.registered) := by
  intro msgs
  induction msgs with
  | nil =>
    intro st
    refine ⟨fun h => ?_, fun _ => ?_⟩
    · simp [registerLoop] at h
    · simp [registerLoop]
  | cons m rest ih =>
    intro st
    cases m with
    | event eu =>
      rcases h2 : (handle integ eu st.currentSubscriptions).2 with _ | err
      · refine ⟨fun h => ?_, fun h => ?_⟩
        · simp only [registerLoop, h2] at h ⊢
          exact (ih st).1 h
        · simp only [registerLoop, h2] at h ⊢
          exact (ih st).2 h
      · by_cases hf : err.fatal
        · refine ⟨fun h => ?_, fun h => ?_⟩
          · simp [registerLoop, h2, hf] at h
          · simp [registerLoop, h2, hf]
        · refine ⟨fun h => ?_, fun h => ?_⟩
          · simp only [registerLoop, h2, if_neg hf] at h ⊢
            exact (ih st).1 h
          · simp only [registerLoop, h2, if_neg hf] at h ⊢
            exact (ih st).2 h
    | subs l =>
      refine ⟨fun h => ?_, fun h => ?_⟩
      · simp only [registerLoop] at h ⊢
        exact (ih { st with currentSubscriptions := l }).1 h
      · simp only [registerLoop] at h ⊢
        exact (ih { st with currentSubscriptions := l }).2 h
    | cancel =>
      refine ⟨fun _ => rfl, fun h => ?_⟩
      exact absurd rfl h

/-- The dispatch loop never produces a setup error. -/
theorem registerLoop_not_setup (integ : Integration) :
    ∀ (msgs : List LoopMsg) (st : CPState) (m : String),
      (registerLoop integ st msgs).2.2 ≠ .setupError m := by
  intro msgs
  induction msgs with
  | nil =>
    intro st m h
    simp [registerLoop] at h
  | cons mg rest ih =>
    intro st m h
    cases mg with
    | event eu =>
      rcases h2 : (handle integ eu st.currentSubscriptions).2 with _ | err
      · simp only [registerLoop, h2] at h
        exact ih st m h
      · by_cases hf : err.fatal = true
        · simp [registerLoop, h2, hf] at h
        · simp only [registerLoop, h2, if_neg hf] at h
          exact ih st m h
    | subs l =>
      simp only [registerLoop] at h
      exact ih _ m h
    | cancel =>
      simp [registerLoop] at h

/-- The `registered` flag after `Register` returns (or while it still
runs), by how it ended: false after cancellation or a setup failure, true
while running and — the flag is never cleared on the error path — still
true after a fatal handler error. -/
theorem Register_flag (env : Env) (integ : Integration) (msgs : List LoopMsg) :
    ((Register env integ msgs).2.2 = .cancelled →
      IsRegistered (Register env integ msgs).1 = false)
  ∧ ((Register env integ msgs).2.2 = .running →
      IsRegistered (Register env integ msgs).1 = true)
  ∧ (∀ e, (Register env integ msgs).2.2 = .fatalError e →
      IsRegistered (Register env integ msgs).1 = true)
  ∧ (∀ m, (Register env integ msgs).2.2 = .setupError m →
      IsRegistered (Register env integ msgs).1 = false) := by
  rcases hR : env.registerIntegrationResult with i | e1
  · rcases hE : env.eventSourceStartResult with _ | e2
    · rcases hS : env.subscriptionSourceStartResult with _ | e3
      · have hreg : Register env integ msgs
            = registerLoop integ { initialState with registered := true } msgs := by
          simp [Register, hR, hE, hS]
        rw [hreg]
        have hflag := registerLoop_flag integ msgs { initialState with registered := true }
        refine ⟨fun h => hflag.1 h, fun h => ?_, fun e h => ?_, fun m h => ?_⟩
        · have hne : (registerLoop integ { initialState with registered := true } msgs).2.2
              ≠ .cancelled := by
            rw [h]
            decide
          exact hflag.2 hne
        · have hne : (registerLoop integ { initialState with registered := true } msgs).2.2
              ≠ .cancelled := by
            simp [h]
          exact hflag.2 hne
        · exact absurd h (registerLoop_not_setup integ msgs _ m)
      · have hreg : Register env integ msgs = (initialState, [], .setupError e3) := by
          simp [Register, hR, hE, hS]
        rw [hreg]
        exact ⟨fun h => by simp at h, fun h => by simp at h,
          fun e h => by simp at h, fun m _ => rfl⟩
    · have hreg : Register env integ msgs = (initialState, [], .setupError e2) := by
        simp [Register, hR, hE]
      rw [hreg]
      exact ⟨fun h => by simp at h, fun h => by simp at h,
        fun e h => by simp at h, fun m _ => rfl⟩
  · have hreg : Register env integ msgs
        = (initialState, [], .setupError ("could not start subscription source: " ++ e1)) := by
      simp [Register, hR]
    rw [hreg]
    exact ⟨fun h => by simp at h, fun h => by simp at h,
      fun e h => by simp at h, fun m _ => rfl⟩

end Keptn

/-! ### Claim theorems -/

namespace Keptn

/-- Claim C1: in the dispatch loop entered by `Register`, a handler
(`OnEvent`) error of the fatal kind for some matched subscription makes
`Register` return that error immediately, without evaluating the remaining
matching subscriptions of the event; any other non-nil handler error is
logged at warning level, evaluation of the remaining matching
subscriptions continues, and the loop goes on to the next message. -/
theorem C1_fatal_vs_recoverable (integ : Integration) :
    (∀ (eu : EventUpdate) (s : EventSubscription) (post : List EventSubscription)
        (effs : List Effect) (err : GoError),
      s.event = eu.metaData.subject →
      (NewEventMatcherFromSubscription s).Matches eu.keptnEvent = true →
      forwardMatchedEvent integ eu.keptnEvent s = (effs, some err) →
      handle integ eu (s :: post) = (effs, some err) ∧ err.fatal = true)
  ∧ (∀ (st : CPState) (eu : EventUpdate) (rest : List LoopMsg)
        (effs : List Effect) (err : GoError),
      handle integ eu st.currentSubscriptions = (effs, some err) →
      err.fatal = true →
      registerLoop integ st (LoopMsg.event eu :: rest) = (st, effs, .fatalError err))
  ∧ (∀ (ev ev2 : KeptnEvent) (s : EventSubscription) (err : GoError),
      AddTemporaryData ev tmpDataDistributorKey s.id = .ok ev2 →
      integ.onEvent ev2 = some err →
      err.fatal = false →
      forwardMatchedEvent integ ev s
        = ([Effect.invoked ev2,
            Effect.warnLog ("Error during handling of event: " ++ err.msg)], none))
  ∧ (∀ (eu : EventUpdate) (s : EventSubscription) (post : List EventSubscription)
        (effs : List Effect),
      s.event = eu.metaData.subject →
      (NewEventMatcherFromSubscription s).Matches eu.keptnEvent = true →
      forwardMatchedEvent integ eu.keptnEvent s = (effs, none) →
      handle integ eu (s :: post)
        = (effs ++ (handle integ eu post).1, (handle integ eu post).2))
  ∧ (∀ (st : CPState) (eu : EventUpdate) (rest : List LoopMsg) (effs : List Effect),
      handle integ eu st.currentSubscriptions = (effs, none) →
      registerLoop integ st (LoopMsg.event eu :: rest)
        = ((registerLoop integ st rest).1,
           effs ++ (registerLoop integ st rest).2.1,
           (registerLoop integ st rest).2.2)) := by
  refine ⟨?_, ?_, ?_, ?_, ?_⟩
  · intro eu s post effs err hs hm hf
    have hfatal : err.fatal = true := fme_snd_fatal integ eu.keptnEvent s err (by rw [hf])
    refine ⟨?_, hfatal⟩
    simp [handle, hs, hm, hf]
  · intro st eu rest effs err hh hf
    simp [registerLoop, hh, hf]
  · intro ev ev2 s err hA hO hf
    simp [forwardMatchedEvent, hA, invokeHandler, hO, hf]
  · intro eu s post effs hs hm hf
    simp [handle, hs, hm, hf]
  · intro st eu rest effs hh
    simp [registerLoop, hh]

/-- Witness for C1: a fatal handler error on a matched subscription makes
the loop return it, with the cancel message behind it left unprocessed. -/
theorem C1_witness :
    registerLoop fatalIntegration
        { currentSubscriptions := [subA], registered := true }
        [LoopMsg.event sampleUpdate, LoopMsg.cancel]
      = ({ currentSubscriptions := [subA], registered := true },
         [Effect.invoked (annotate sampleEvent "sub-a"),
          Effect.errLog "Fatal error during handling of event: boom"],
         .fatalError ⟨true, "boom"⟩) := by
  exact (C1_fatal_vs_recoverable fatalIntegration).2.1
    { currentSubscriptions := [subA], registered := true }
    sampleUpdate [LoopMsg.cancel]
    [Effect.invoked (annotate sampleEvent "sub-a"),
     Effect.errLog "Fatal error during handling of event: boom"]
    ⟨true, "boom"⟩ (by decide) rfl

/-- Claim C3: `Forward` on an event whose type ends in `".finished"`:
if the payload decodes and its status is `"errored"`, exactly one log
record with the caller-supplied integration id, the decoded message, the
event's context, the task name parsed from the dot-delimited type
(`"checkout.finished"` yields `"checkout"`), and the event's triggered id
is emitted, with nil returned; any other decoded status emits nothing and
returns nil; a decode failure returns an error and emits nothing. -/
theorem C3_forward_finished (ev : KeptnEvent) (iid ty : String)
    (hty : ev.type = some ty) (hsuf : strEndsWith ty ".finished" = true) :
    (∀ f : PayloadFields, ev.data = .obj f → f.status = "errored" →
      Forward ev iid
        = some (.ok [⟨iid, f.message, ev.shkeptncontext, parseTaskName ty,
            ev.triggeredid⟩]))
  ∧ (∀ f : PayloadFields, ev.data = .obj f → f.status ≠ "errored" →
      Forward ev iid = some (.ok []))
  ∧ (ev.data = .malformed →
      Forward ev iid
        = some (.err ("could not decode Keptn event data: "
            ++ "json unmarshalling failed")))
  ∧ parseTaskName "checkout.finished" = "checkout" := by
  refine ⟨?_, ?_, ?_, by decide⟩
  · intro f hd hst
    simp [Forward, hty, hsuf, EventDataAs, hd, hst, statusErrored]
  · intro f hd hst
    simp [Forward, hty, hsuf, EventDataAs, hd, hst, statusErrored]
  · intro hd
    simp [Forward, hty, hsuf, EventDataAs, hd]

/-- Witness for C3: the errored checkout event yields exactly the record
of the spec, and the same event with status succeeded yields none. -/
theorem C3_witness :
    Forward { sampleEvent with type := some "checkout.finished" } "svc-1"
      = some (.ok [⟨"svc-1", "boom", "ctx", "checkout", "tid"⟩])
  ∧ Forward { sampleEvent with
        type := some "checkout.finished",
        data := .obj ⟨"", "", "", "succeeded", "boom", "", ""⟩ } "svc-1"
      = some (.ok []) := by
  constructor
  · exact ((C3_forward_finished { sampleEvent with type := some "checkout.finished" }
      "svc-1" "checkout.finished" rfl (by decide)).1
      ⟨"", "", "", "errored", "boom", "", ""⟩ rfl rfl).trans (by decide)
  · exact (C3_forward_finished { sampleEvent with
        type := some "checkout.finished",
        data := .obj ⟨"", "", "", "succeeded", "boom", "", ""⟩ }
      "svc-1" "checkout.finished" rfl (by decide)).2.1
      ⟨"", "", "", "succeeded", "boom", "", ""⟩ rfl (by decide)

/-- Claim C10: `Forward` dereferences the event's `Type` pointer before
any branch test, so a nil `Type` faults (modelled as `none`); under the
precondition that `Type` is non-nil, any type neither ending in
`".finished"` nor equal to the log-error event type returns nil with no
record emitted. -/
theorem C10_type_deref (ev : KeptnEvent) (iid : String) :
    (ev.type = none → Forward ev iid = none)
  ∧ (∀ ty, ev.type = some ty → strEndsWith ty ".finished" = false →
      ty ≠ errorLogEventName → Forward ev iid = some (.ok [])) := by
  constructor
  · intro h
    simp [Forward, h]
  · intro ty hty hsuf hne
    simp [Forward, hty, hsuf, hne]

/-- Witness for C10: a nil-typed event faults; a triggered-type event is a
no-op returning nil. -/
theorem C10_witness :
    Forward { sampleEvent with type := none } "svc-1" = none
  ∧ Forward sampleEvent "svc-1" = some (.ok []) := by
  constructor
  · exact (C10_type_deref { sampleEvent with type := none } "svc-1").1 rfl
  · exact (C10_type_deref sampleEvent "svc-1").2
      "sh.keptn.event.dev.checkout.triggered" rfl (by decide) (by decide)

/-- Claim C2 as stated fails on the code: with two same-subject
subscriptions both matching the event, a handler that returns the fatal
error kind on the first matched subscription aborts dispatch, so only one
invocation happens instead of one per matching subscription. -/
theorem C2_counterexample :
    (matchingSubscriptions sampleUpdate [subA, subB]).length = 2
  ∧ (invokedEvents
      (handle fatalIntegration sampleUpdate [subA, subB]).1).length = 1 := by
  decide

/-- Claim C2, amended: provided dispatch of the event is not aborted by a
fatal handler error and the provenance annotation can be attached, the
handler is invoked exactly once per subscription whose subject equals the
event's subject and whose matcher accepts the event, in order, each
invocation carrying the event annotated (overwrite-if-existing) with that
subscription's own subscription id; in particular zero matching
subscriptions yield no invocation. -/
theorem C2_dispatch_per_matching_subscription (integ : Integration)
    (eu : EventUpdate) (subs : List EventSubscription)
    (hb : eu.keptnEvent.tmpDataBroken = false)
    (hn : (handle integ eu subs).2 = none) :
    invokedEvents (handle integ eu subs).1
      = (matchingSubscriptions eu subs).map (fun s => annotate eu.keptnEvent s.id) := by
  induction subs with
  | nil =>
    simp [handle, matchingSubscriptions, invokedEvents]
  | cons s rest ih =>
    by_cases hs : s.event = eu.metaData.subject
    · by_cases hm : (NewEventMatcherFromSubscription s).Matches eu.keptnEvent = true
      · rcases hfme : forwardMatchedEvent integ eu.keptnEvent s with ⟨effs, r⟩
        cases r with
        | some err =>
          exfalso
          simp [handle, hs, hm, hfme] at hn
        | none =>
          have hx : handle integ eu (s :: rest)
              = (effs ++ (handle integ eu rest).1, (handle integ eu rest).2) := by
            simp [handle, hs, hm, hfme]
          rw [hx] at hn ⊢
          have hn' : (handle integ eu rest).2 = none := by simpa using hn
          have heffs : invokedEvents effs = [annotate eu.keptnEvent s.id] := by
            have h1 := fme_invoked_of_tmp_ok integ eu.keptnEvent s hb
            rw [hfme] at h1
            exact h1
          calc invokedEvents (effs ++ (handle integ eu rest).1, (handle integ eu rest).2).1
              = invokedEvents effs ++ invokedEvents (handle integ eu rest).1 := by
                simp [invokedEvents]
            _ = [annotate eu.keptnEvent s.id]
                  ++ (matchingSubscriptions eu rest).map (fun s => annotate eu.keptnEvent s.id) := by
                rw [heffs, ih hn']
            _ = (matchingSubscriptions eu (s :: rest)).map
                  (fun s => annotate eu.keptnEvent s.id) := by
                simp [matchingSubscriptions, List.filter_cons, hs, hm]
      · have hx : handle integ eu (s :: rest) = handle integ eu rest := by
          simp [handle, hs, hm]
        rw [hx] at hn ⊢
        rw [ih hn]
        simp [matchingSubscriptions, List.filter_cons, hs, hm]
    · have hx : handle integ eu (s :: rest) = handle integ eu rest := by
        simp [handle, hs]
      rw [hx] at hn ⊢
      rw [ih hn]
      simp [matchingSubscriptions, List.filter_cons, hs]

/-- Witness for amended C2: two same-subject subscriptions matching the
event yield two invocations, each annotated with its own id. -/
theorem C2_witness :
    invokedEvents (handle okIntegration sampleUpdate [subA, subB]).1
      = [annotate sampleEvent "sub-a", annotate sampleEvent "sub-b"] := by
  have h := C2_dispatch_per_matching_subscription okIntegration sampleUpdate
    [subA, subB] (by decide) (by decide)
  exact h.trans (by decide)

/-- Claim C8: `Forward` on an event whose type equals the dedicated log
error event type: if the payload decodes, exactly one record is emitted,
whose integration id is the payload's own when non-empty and the
caller-supplied default otherwise; a decode failure returns an error and
emits nothing. -/
theorem C8_forward_log_error (ev : KeptnEvent) (iid : String)
    (hty : ev.type = some errorLogEventName) :
    (∀ f : PayloadFields, ev.data = .obj f → f.integrationID ≠ "" →
      Forward ev iid
        = some (.ok [⟨f.integrationID, f.message, ev.shkeptncontext, f.task,
            ev.triggeredid⟩]))
  ∧ (∀ f : PayloadFields, ev.data = .obj f → f.integrationID = "" →
      Forward ev iid
        = some (.ok [⟨iid, f.message, ev.shkeptncontext, f.task,
            ev.triggeredid⟩]))
  ∧ (ev.data = .malformed →
      Forward ev iid
        = some (.err ("unable decode Keptn event data: "
            ++ "json unmarshalling failed"))) := by
  have hns : strEndsWith errorLogEventName ".finished" = false := by decide
  refine ⟨?_, ?_, ?_⟩
  · intro f hd hii
    simp [Forward, hty, hns, ErrorLogEventAs, hd, hii]
  · intro f hd hii
    simp [Forward, hty, hns, ErrorLogEventAs, hd, hii]
  · intro hd
    simp [Forward, hty, hns, ErrorLogEventAs, hd]

/-- Witness for C8: a log-error event carrying its own integration id
overrides the caller-supplied default; an empty payload id falls back to
the default. -/
theorem C8_witness :
    Forward { sampleEvent with
        type := some errorLogEventName,
        data := .obj ⟨"", "", "", "", "boom", "other-svc", "checkout"⟩ } "svc-1"
      = some (.ok [⟨"other-svc", "boom", "ctx", "checkout", "tid"⟩])
  ∧ Forward { sampleEvent with
        type := some errorLogEventName,
        data := .obj ⟨"", "", "", "", "boom", "", "checkout"⟩ } "svc-1"
      = some (.ok [⟨"svc-1", "boom", "ctx", "checkout", "tid"⟩]) := by
  constructor
  · exact (C8_forward_log_error { sampleEvent with
        type := some errorLogEventName,
        data := .obj ⟨"", "", "", "", "boom", "other-svc", "checkout"⟩ } "svc-1" rfl).1
      ⟨"", "", "", "", "boom", "other-svc", "checkout"⟩ rfl (by decide)
  · exact (C8_forward_log_error { sampleEvent with
        type := some errorLogEventName,
        data := .obj ⟨"", "", "", "", "boom", "", "checkout"⟩ } "svc-1" rfl).2.1
      ⟨"", "", "", "", "boom", "", "checkout"⟩ rfl rfl

/-- Claim C9: a failure while attaching the subscription-provenance
annotation is never fatal: the failure is logged as a warning, the handler
is still invoked on the (unannotated) event, and any error leaving the
dispatch of this subscription comes from the handler being fatal, never
from the annotation. -/
theorem C9_annotation_failure_not_fatal (integ : Integration)
    (ev : KeptnEvent) (s : EventSubscription)
    (hb : ev.tmpDataBroken = true) :
    (forwardMatchedEvent integ ev s).1.head?
        = some (Effect.warnLog ("Could not append subscription data to event: "
            ++ "could not marshal temporary data"))
  ∧ Effect.invoked ev ∈ (forwardMatchedEvent integ ev s).1
  ∧ (∀ err, (forwardMatchedEvent integ ev s).2 = some err →
      err.fatal = true ∧ integ.onEvent ev = some err) := by
  have hA : AddTemporaryData ev tmpDataDistributorKey s.id
      = .err "could not marshal temporary data" := by
    simp [AddTemporaryData, hb]
  have hfme : forwardMatchedEvent integ ev s
      = invokeHandler integ
          [Effect.warnLog ("Could not append subscription data to event: "
            ++ "could not marshal temporary data")] ev := by
    simp [forwardMatchedEvent, hA]
  rw [hfme]
  refine ⟨?_, ?_, ?_⟩
  · rcases hO : integ.onEvent ev with _ | e
    · simp [invokeHandler, hO]
    · by_cases hf : e.fatal = true <;> simp [invokeHandler, hO, hf]
  · rcases hO : integ.onEvent ev with _ | e
    · simp [invokeHandler, hO]
    · by_cases hf : e.fatal = true <;> simp [invokeHandler, hO, hf]
  · intro err h
    exact invokeHandler_snd_eq integ _ ev err h

/-- Witness for C9: with a broken temporary-data payload and an
always-successful handler, the warning is logged first and the handler is
still invoked on the unannotated event. -/
theorem C9_witness :
    (forwardMatchedEvent okIntegration brokenEvent subA).1.head?
        = some (Effect.warnLog ("Could not append subscription data to event: "
            ++ "could not marshal temporary data"))
  ∧ Effect.invoked brokenEvent ∈ (forwardMatchedEvent okIntegration brokenEvent subA).1 := by
  exact ⟨(C9_annotation_failure_not_fatal okIntegration brokenEvent subA rfl).1,
    (C9_annotation_failure_not_fatal okIntegration brokenEvent subA rfl).2.1⟩

/-- Claim C4 as stated fails on the code: after the loop terminates
because the handler returned a fatal error, the `registered` flag is not
cleared, so `IsRegistered()` still reports true. -/
theorem C4_counterexample :
    (Register okEnv fatalIntegration
        [LoopMsg.subs [subA], LoopMsg.event sampleUpdate]).2.2
      = .fatalError ⟨true, "boom"⟩
  ∧ IsRegistered (Register okEnv fatalIntegration
        [LoopMsg.subs [subA], LoopMsg.event sampleUpdate]).1 = true := by
  exact ⟨rfl, rfl⟩

/-- Claim C4, amended: `IsRegistered()` is true while the dispatch loop is
running and false after a cancellation return or a setup failure; on the
fatal-error path the flag is not cleared, so after `Register` returns the
fatal error `IsRegistered()` still reports true. -/
theorem C4_registered_flag (env : Env) (integ : Integration)
    (msgs : List LoopMsg) :
    ((Register env integ msgs).2.2 = .cancelled →
      IsRegistered (Register env integ msgs).1 = false)
  ∧ ((Register env integ msgs).2.2 = .running →
      IsRegistered (Register env integ msgs).1 = true)
  ∧ (∀ e, (Register env integ msgs).2.2 = .fatalError e →
      IsRegistered (Register env integ msgs).1 = true)
  ∧ (∀ m, (Register env integ msgs).2.2 = .setupError m →
      IsRegistered (Register env integ msgs).1 = false) := by
  exact Register_flag env integ msgs

/-- Witness for amended C4: a cancelled run reports false, a run ended by
a fatal handler error still reports true. -/
theorem C4_witness :
    IsRegistered (Register okEnv okIntegration [LoopMsg.cancel]).1 = false
  ∧ IsRegistered (Register okEnv fatalIntegration
      [LoopMsg.subs [subA], LoopMsg.event sampleUpdate]).1 = true := by
  exact ⟨(C4_registered_flag okEnv okIntegration [LoopMsg.cancel]).1 (by decide),
    (C4_registered_flag okEnv fatalIntegration
        [LoopMsg.subs [subA], LoopMsg.event sampleUpdate]).2.2.1
      ⟨true, "boom"⟩ (by decide)⟩

/-- Claim C5: when the cancellation signal is received, the loop clears
`registered` and returns with no error; whenever `Register` ends in
cancellation, `IsRegistered()` subsequently reports false. -/
theorem C5_cancellation (integ : Integration) (st : CPState)
    (rest : List LoopMsg) (env : Env) (msgs : List LoopMsg) :
    registerLoop integ st (LoopMsg.cancel :: rest)
        = ({ st with registered := false }, [], .cancelled)
  ∧ ((Register env integ msgs).2.2 = .cancelled →
      IsRegistered (Register env integ msgs).1 = false) := by
  exact ⟨rfl, (Register_flag env integ msgs).1⟩

/-- Witness for C5: a concrete run cancelled after one event reports
false. -/
theorem C5_witness :
    registerLoop okIntegration
        { currentSubscriptions := [subA], registered := true }
        [LoopMsg.cancel]
      = ({ currentSubscriptions := [subA], registered := false }, [], .cancelled)
  ∧ IsRegistered (Register okEnv okIntegration
      [LoopMsg.subs [subA], LoopMsg.event sampleUpdate, LoopMsg.cancel]).1 = false := by
  exact ⟨(C5_cancellation okIntegration
      { currentSubscriptions := [subA], registered := true } [] okEnv []).1,
    (C5_cancellation okIntegration initialState [] okEnv
        [LoopMsg.subs [subA], LoopMsg.event sampleUpdate, LoopMsg.cancel]).2
      (by decide)⟩

/-- Claim C6: a new subscription snapshot replaces the cached set
wholesale — the continuation runs with exactly the new list, whatever was
cached before — and the event source is synchronously notified with
exactly the subject strings of the new snapshot, in order. -/
theorem C6_snapshot_replacement (integ : Integration) (st : CPState)
    (l : List EventSubscription) (rest : List LoopMsg) :
    registerLoop integ st (LoopMsg.subs l :: rest)
      = ((registerLoop integ { st with currentSubscriptions := l } rest).1,
         Effect.subscriptionUpdate (subjects l)
           :: (registerLoop integ { st with currentSubscriptions := l } rest).2.1,
         (registerLoop integ { st with currentSubscriptions := l } rest).2.2)
  ∧ subjects l = l.map (fun s => s.event) := by
  exact ⟨rfl, rfl⟩

/-- Claim C7: if the registration API call fails, or either collaborator
`Start` call fails, `Register` returns the error immediately with no
effects — the dispatch loop is never entered, so no event is dispatched
and no snapshot is applied — and `IsRegistered()` remains false. -/
theorem C7_setup_failure (env : Env) (integ : Integration)
    (msgs : List LoopMsg) :
    (∀ e, env.registerIntegrationResult = .err e →
      Register env integ msgs
        = (initialState, [],
           .setupError ("could not start subscription source: " ++ e)))
  ∧ (∀ i e, env.registerIntegrationResult = .ok i →
      env.eventSourceStartResult = some e →
      Register env integ msgs = (initialState, [], .setupError e))
  ∧ (∀ i e, env.registerIntegrationResult = .ok i →
      env.eventSourceStartResult = none →
      env.subscriptionSourceStartResult = some e →
      Register env integ msgs = (initialState, [], .setupError e))
  ∧ IsRegistered initialState = false := by
  refine ⟨?_, ?_, ?_, rfl⟩
  · intro e hR
    simp [Register, hR]
  · intro i e hR hE
    simp [Register, hR, hE]
  · intro i e hR hE hS
    simp [Register, hR, hE, hS]

/-- Witness for C7: a failing registration call returns the wrapped error
with no effects and an unregistered state. -/
theorem C7_witness :
    Register { registerIntegrationResult := .err "api down"
               eventSourceStartResult := none
               subscriptionSourceStartResult := none }
      okIntegration [LoopMsg.event sampleUpdate]
      = (initialState, [],
         .setupError "could not start subscription source: api down") := by
  exact ((C7_setup_failure { registerIntegrationResult := .err "api down"
                             eventSourceStartResult := none
                             subscriptionSourceStartResult := none }
      okIntegration [LoopMsg.event sampleUpdate]).1 "api down" rfl).trans (by decide)

end Keptn
